import Mathlib

set_option linter.unusedVariables false
set_option maxRecDepth 40000

/-!
Shallow embedding of `src/scanner.py` (a TCP port scanner).

Network behaviour is abstracted by an environment `env : Nat → ConnectOutcome ×
CloseOutcome` giving, for each port, the outcome of the connection attempt and
of the subsequent close of the connection.  Everything else is translated
directly from the source:

* `COMMON_PORTS`            — scanner.py lines 12–16
* `scan_port`               — scanner.py lines 18–31 (final value of `results[port]`)
* `scan_port_writes`        — the successive assignments to `results[port]`
* `chunk_size`/`scanBatches`/`scannedPorts` — the chunking loop, lines 51–64
* `scan_ports`              — scanner.py lines 33–64 (resolution + probe fan-out)
* `save_results`            — scanner.py lines 89–92
* `main` / `main_resume`    — scanner.py lines 94–137

Python's `range(a, b, step)` builtin is embedded as `pyRange` (for a positive
step it is the list a, a+step, … of length ⌈(b−a)/step⌉; an empty list when
b ≤ a, matching Python).
-/

namespace PortScanner

/-- scanner.py lines 12–16: the static port → service-name table. -/
def COMMON_PORTS : List (Nat × String) :=
  [(20, "FTP Data"), (21, "FTP Control"), (22, "SSH"), (23, "Telnet"),
   (25, "SMTP"), (53, "DNS"), (80, "HTTP"), (443, "HTTPS"),
   (3306, "MySQL"), (5432, "PostgreSQL"), (27017, "MongoDB")]

/-- `COMMON_PORTS.get(port, "Unknown")` (scanner.py line 25). -/
def lookupService (port : Nat) : String :=
  (COMMON_PORTS.lookup port).getD "Unknown"

/-- The status strings stored in the results dictionary. -/
inductive Status where
  | Open : Status
  | Closed : Status
  | Error : Status
deriving DecidableEq, Repr

/-- The string actually stored in the Python dict for each status. -/
def statusStr : Status → String
  | .Open => "open"
  | .Closed => "closed"
  | .Error => "error"

/-- One entry of the `results` dictionary (scanner.py lines 25, 29, 31).
An open entry carries the service name, an error entry carries `str(e)`. -/
structure PortResult where
  status : Status
  service : Option String := none
  error : Option String := none
deriving DecidableEq, Repr

/-- Outcome of `asyncio.wait_for(asyncio.open_connection(host, port), timeout)`
(scanner.py lines 21–24): the connection is established, or the attempt raises
`asyncio.TimeoutError`, `ConnectionRefusedError`, or some other exception
carrying the message `str(e)`. -/
inductive ConnectOutcome where
  | success : ConnectOutcome
  | timeout : ConnectOutcome
  | refused : ConnectOutcome
  | failure : String → ConnectOutcome
deriving DecidableEq, Repr

/-- Outcome of `writer.close(); await writer.wait_closed()` (scanner.py
lines 26–27), reached only after a successful connection: either the close
succeeds, or it raises an exception that is caught by one of the two `except`
clauses of `scan_port` (line 28 for `asyncio.TimeoutError` /
`ConnectionRefusedError` class exceptions, line 30 for anything else). -/
inductive CloseOutcome where
  | ok : CloseOutcome
  | raisesTimeoutOrRefused : CloseOutcome
  | raisesOther : String → CloseOutcome
deriving DecidableEq, Repr

/-- scanner.py lines 18–31, as the sequence of assignments made to
`results[port]` during one call of `scan_port`.  On a successful connection
line 25 stores an `open` entry; if the subsequent close raises, the matching
`except` clause stores a second entry over the same key. -/
def scan_port_writes (port : Nat) (conn : ConnectOutcome) (close : CloseOutcome) :
    List PortResult :=
  match conn with
  | .success =>
    match close with
    | .ok => [{ status := .Open, service := some (lookupService port) }]
    | .raisesTimeoutOrRefused =>
        [{ status := .Open, service := some (lookupService port) },
         { status := .Closed }]
    | .raisesOther msg =>
        [{ status := .Open, service := some (lookupService port) },
         { status := .Error, error := some msg }]
  | .timeout => [{ status := .Closed }]
  | .refused => [{ status := .Closed }]
  | .failure msg => [{ status := .Error, error := some msg }]

/-- The final value of `results[port]` after `scan_port` returns: the last
write wins (Python dict assignment). -/
def scan_port (port : Nat) (conn : ConnectOutcome) (close : CloseOutcome) : PortResult :=
  (scan_port_writes port conn close).getLastD { status := .Error }

/-- `scan_port`'s `timeout` parameter (scanner.py line 18) together with its
result; `scan_ports` (line 56) calls `scan_port(host, p, results)` passing no
timeout argument, so Python always binds the declared default `timeout=1`. -/
structure ProbeRecord where
  result : PortResult
  timeoutUsed : Rat
deriving DecidableEq, Repr

/-- One call of `scan_port` seen with its bound `timeout` parameter. -/
def scan_port_run (port : Nat) (conn : ConnectOutcome) (close : CloseOutcome)
    (timeout : Rat) : ProbeRecord :=
  { result := scan_port port conn close, timeoutUsed := timeout }

/-- Python's `range(start, stop, step)` for a positive step. -/
def pyRange (start stop step : Nat) : List Nat :=
  (List.range ((stop - start + step - 1) / step)).map (fun i => start + step * i)

/-- scanner.py line 51: `chunk_size = min(1000, end_port - start_from_port + 1)`. -/
def chunk_size (start_from_port end_port : Nat) : Nat :=
  min 1000 (end_port - start_from_port + 1)

/-- scanner.py lines 53–55: the outer loop
`for port in range(start_from_port, end_port + 1, chunk_size)` with
`chunk_end = min(port + chunk_size, end_port + 1)` produces one contiguous
batch `range(port, chunk_end)` per iteration. -/
def scanBatches (start_from_port end_port : Nat) : List (List Nat) :=
  let cs := chunk_size start_from_port end_port
  (pyRange start_from_port (end_port + 1) cs).map
    (fun port => pyRange port (min (port + cs) (end_port + 1)) 1)

/-- All ports probed by the chunking loop, batch after batch. -/
def scannedPorts (start_from_port end_port : Nat) : List Nat :=
  (scanBatches start_from_port end_port).flatten

/-- The `host` argument: either a literal IP address (accepted by
`ipaddress.ip_address`, scanner.py line 36) or a hostname together with what
`socket.gethostbyname` would resolve it to (`none` = `socket.gaierror`). -/
inductive Host where
  | ip : String → Host
  | hostname : String → Option String → Host
deriving DecidableEq, Repr

/-- The original host string (used in the line-41 message). -/
def hostStr : Host → String
  | .ip a => a
  | .hostname h _ => h

/-- scanner.py lines 34–42: a literal IP is used unchanged, a hostname is
resolved; resolution failure yields no address. -/
def resolve : Host → Option String
  | .ip a => some a
  | .hostname _ r => r

/-- Observable behaviour of one `scan_ports` call (scanner.py lines 33–64,
with the environment supplying every probe's outcome).  `probes` is the list
of `(address, port)` connection attempts issued; `records` is the final
`results` dictionary (keyed by port — the key set does not depend on the
completion order of the probes); `returnValue` is `len(results)` (line 87) or
`0` on resolution failure (line 42). -/
structure ScanPortsRun where
  resolutionError : Option String := none
  probes : List (String × Nat) := []
  records : List (Nat × ProbeRecord) := []
  returnValue : Nat := 0
deriving DecidableEq, Repr

/-- The final results dictionary as port → PortResult. -/
def ScanPortsRun.results (r : ScanPortsRun) : List (Nat × PortResult) :=
  r.records.map (fun x => (x.1, x.2.result))

/-- scanner.py lines 33–64.  `start_port` is used only in the line-44 banner;
the loop iterates from `start_from_port`, whose Python default is `0`.  Every
call of `scan_port` (line 56) passes no timeout, binding the default `1`. -/
def scan_ports (host : Host) (start_port end_port : Nat)
    (env : Nat → ConnectOutcome × CloseOutcome) (start_from_port : Nat) :
    ScanPortsRun :=
  match resolve host with
  | none => { resolutionError := some (hostStr host) }
  | some addr =>
    let ports := scannedPorts start_from_port end_port
    { probes := ports.map (fun p => (addr, p)),
      records := ports.map (fun p => (p, scan_port_run p (env p).1 (env p).2 1)),
      returnValue := ports.length }

/-- scanner.py lines 89–92: the lines written to the output file, one per
entry of the results dictionary, in the order the dictionary holds them. -/
def save_results (results : List (Nat × PortResult)) : List String :=
  results.map (fun pd => "Port " ++ toString pd.1 ++ ": " ++ statusStr pd.2.status)

/-- The parsed command-line arguments (scanner.py lines 96–101), with the
argparse defaults.  Ports are integers, as in Python. -/
structure Args where
  host : Host
  start_port : Int := 1
  end_port : Int := 65535
  output : Option String := none
  timeout : Rat := 1
  common : Bool := false

/-- scanner.py line 106: `sorted(COMMON_PORTS.keys())`. -/
def ports_to_scan : List Nat :=
  (COMMON_PORTS.map Prod.fst).insertionSort (· ≤ ·)

/-- Python's `min` over a (non-empty) list. -/
def listMin : List Nat → Nat
  | [] => 0
  | x :: xs => xs.foldl min x

/-- Python's `max` over a (non-empty) list. -/
def listMax : List Nat → Nat
  | [] => 0
  | x :: xs => xs.foldl max x

/-- scanner.py lines 105–108: with `--common`, `args.start_port` is replaced
by `min(ports_to_scan)` before validation. -/
def effStart (args : Args) : Int :=
  if args.common then ((listMin ports_to_scan : Nat) : Int) else args.start_port

/-- scanner.py lines 105–108: with `--common`, `args.end_port` is replaced by
`max(ports_to_scan)` before validation. -/
def effEnd (args : Args) : Int :=
  if args.common then ((listMax ports_to_scan : Nat) : Int) else args.end_port

/-- scanner.py lines 110–115: the validation checks, run on the (possibly
`--common`-overridden) port values, in source order. -/
def validationError (args : Args) : Option String :=
  if effStart args < 1 ∨ 65535 < effEnd args then
    some "Port range must be between 1 and 65535."
  else if effEnd args < effStart args then
    some "Start port must be less than or equal to end port."
  else none

/-- Observable behaviour of one `main` run (scanner.py lines 94–137).
`filesWritten` is the list of (filename, lines) files written: the body of
`main` contains no call of `save_results` and never reads `args.output`, so no
run writes any file. -/
structure MainRun where
  validationMsg : Option String := none
  scan : Option ScanPortsRun := none
  filesWritten : List (String × List String) := []

/-- scanner.py lines 94–120 (the uninterrupted path): validate, then
`asyncio.run(scan_ports(args.host, args.start_port, args.end_port))` — the
fourth parameter `start_from_port` is not passed, so it is Python's
default `0`. -/
def main (args : Args) (env : Nat → ConnectOutcome × CloseOutcome) : MainRun :=
  match validationError args with
  | some m => { validationMsg := some m }
  | none =>
    { scan := some (scan_ports args.host (effStart args).toNat (effEnd args).toNat env 0) }

/-- scanner.py lines 117–137, interrupted-then-continued path:
`current_port = args.start_port` (line 117) is never reassigned afterwards, so
when the operator chooses to continue, line 131 runs
`scan_ports(args.host, current_port, args.end_port, current_port)` with
`current_port` still equal to the (possibly `--common`-overridden) start port,
whatever the interruption point was.  The first, interrupted call's `results`
dictionary was local to `scan_ports` and is discarded; the resumed call's
dictionary is the final one. -/
def main_resume (args : Args) (env : Nat → ConnectOutcome × CloseOutcome) :
    Option ScanPortsRun :=
  match validationError args with
  | some _ => none
  | none =>
    some (scan_ports args.host (effStart args).toNat (effEnd args).toNat env
      (effStart args).toNat)

/-- A network environment where every port times out (probe outcome Closed). -/
def envClosed : Nat → ConnectOutcome × CloseOutcome := fun _ => (.timeout, .ok)

end PortScanner

namespace PortScanner

/-- C4 counterexample: the claim "a successful connection is recorded as Open"
fails — when the connection succeeds but the subsequent close raises a generic
exception, the recorded entry for the port has status Error, not Open. -/
theorem C4_success_not_always_Open :
    (scan_port 80 .success (.raisesOther "connection reset by peer")).status ≠
      Status.Open := by decide

/-- C4 (amended): a probe terminates in a recorded PortResult on every input:
a successful connection whose close also succeeds is recorded as Open with the
service name from the static table (absent → "Unknown" via `lookupService`);
a timeout or connection refusal is recorded as Closed; any other connection
failure is recorded as Error with the detail string; and if the close after a
successful connection raises, the entry is overwritten (Error with detail for
a generic exception, Closed for a timeout/refused-class exception). -/
theorem C4_probe_classification (port : Nat) (conn : ConnectOutcome)
    (close : CloseOutcome) :
    (conn = .success → close = .ok →
      scan_port port conn close =
        { status := .Open, service := some (lookupService port), error := none }) ∧
    (conn = .timeout ∨ conn = .refused →
      scan_port port conn close = { status := .Closed }) ∧
    (∀ msg, conn = .failure msg →
      scan_port port conn close = { status := .Error, error := some msg }) ∧
    (∀ msg, conn = .success → close = .raisesOther msg →
      scan_port port conn close = { status := .Error, error := some msg }) ∧
    (conn = .success → close = .raisesTimeoutOrRefused →
      scan_port port conn close = { status := .Closed }) := by
  refine ⟨?_, ?_, ?_, ?_, ?_⟩
  · intro h1 h2; subst h1; subst h2; rfl
  · intro h; rcases h with h | h <;> subst h <;> rfl
  · intro msg h; subst h; rfl
  · intro msg h1 h2; subst h1; subst h2; rfl
  · intro h1 h2; subst h1; subst h2; rfl

/-- Witness for C4_probe_classification at port 22 with a clean close. -/
theorem C4_probe_classification_witness :
    scan_port 22 .success .ok =
      { status := .Open, service := some (lookupService 22), error := none } :=
  (C4_probe_classification 22 .success .ok).1 rfl rfl

/-- C10: if the connection attempt succeeds but closing the connection raises
a generic exception, `scan_port` first records an Open entry (with the service
name) and then overwrites it with an Error entry carrying the detail string,
so the port ends up reported as Error rather than Open. -/
theorem C10_open_overwritten_on_close_error (port : Nat) (msg : String) :
    scan_port_writes port .success (.raisesOther msg) =
      [{ status := .Open, service := some (lookupService port), error := none },
       { status := .Error, service := none, error := some msg }] ∧
    (scan_port port .success (.raisesOther msg)).status = Status.Error :=
  ⟨rfl, rfl⟩

/-- Witness for C10_open_overwritten_on_close_error at port 443. -/
theorem C10_open_overwritten_on_close_error_witness :
    scan_port_writes 443 .success (.raisesOther "broken pipe") =
      [{ status := .Open, service := some (lookupService 443), error := none },
       { status := .Error, service := none, error := some "broken pipe" }] ∧
    (scan_port 443 .success (.raisesOther "broken pipe")).status = Status.Error :=
  C10_open_overwritten_on_close_error 443 "broken pipe"

/-- C7: a hostname that cannot be resolved makes `scan_ports` fail fatally:
the resolution error is reported (once, carrying the original host string) and
no probe is attempted, no result recorded, and the call returns 0; a literal
IP address is used unchanged as the connection address of every probe, with no
name resolution. -/
theorem C7_resolution_failure_fatal (name a : String) (s e sfp : Nat)
    (env : Nat → ConnectOutcome × CloseOutcome) :
    (scan_ports (.hostname name none) s e env sfp).resolutionError = some name ∧
    (scan_ports (.hostname name none) s e env sfp).probes = [] ∧
    (scan_ports (.hostname name none) s e env sfp).records = [] ∧
    (scan_ports (.hostname name none) s e env sfp).returnValue = 0 ∧
    resolve (.ip a) = some a ∧
    (scan_ports (.ip a) s e env sfp).probes =
      (scannedPorts sfp e).map (fun p => (a, p)) :=
  ⟨rfl, rfl, rfl, rfl, rfl, rfl⟩

/-- Witness for C7_resolution_failure_fatal on a concrete unresolvable host. -/
theorem C7_resolution_failure_fatal_witness :
    (scan_ports (.hostname "no.such.host" none) 1 3 envClosed 0).resolutionError =
      some "no.such.host" ∧
    (scan_ports (.hostname "no.such.host" none) 1 3 envClosed 0).probes = [] ∧
    (scan_ports (.hostname "no.such.host" none) 1 3 envClosed 0).records = [] ∧
    (scan_ports (.hostname "no.such.host" none) 1 3 envClosed 0).returnValue = 0 ∧
    resolve (.ip "1.2.3.4") = some "1.2.3.4" ∧
    (scan_ports (.ip "1.2.3.4") 1 3 envClosed 0).probes =
      (scannedPorts 0 3).map (fun p => ("1.2.3.4", p)) :=
  C7_resolution_failure_fatal "no.such.host" "1.2.3.4" 1 3 0 envClosed

/-- C8: no run of `main` ever writes an output file — `save_results` is
defined (scanner.py lines 89–92) but never called, and `args.output` is never
read, so even when the -o option is given nothing is written. -/
theorem C8_no_output_file_ever_written (args : Args)
    (env : Nat → ConnectOutcome × CloseOutcome) :
    (main args env).filesWritten = [] := by
  unfold main
  cases validationError args <;> rfl

/-- Witness for C8_no_output_file_ever_written with -o supplied. -/
theorem C8_no_output_file_ever_written_witness :
    (main { host := .ip "10.0.0.1", output := some "results.txt" }
        envClosed).filesWritten = [] :=
  C8_no_output_file_ever_written _ envClosed

/-- C9: the -t (--timeout) argument is ignored — every probe of every scan run
by `main` uses timeout 1, the default of `scan_port`'s `timeout` parameter,
because `scan_ports` (line 56) never forwards a timeout and `main` never
passes `args.timeout` anywhere. -/
theorem C9_timeout_flag_ignored (args : Args)
    (env : Nat → ConnectOutcome × CloseOutcome) (r : ScanPortsRun)
    (hr : (main args env).scan = some r) (x : Nat × ProbeRecord)
    (hx : x ∈ r.records) : x.2.timeoutUsed = 1 := by
  unfold main at hr
  cases hv : validationError args <;> rw [hv] at hr
  · simp only [Option.some.injEq] at hr
    subst hr
    unfold scan_ports at hx
    cases hres : resolve args.host <;> rw [hres] at hx
    · simp at hx
    · simp only [List.mem_map] at hx
      obtain ⟨p, hp, hpx⟩ := hx
      subst hpx
      rfl
  · simp at hr

/-- A concrete one-port scan used to witness C9_timeout_flag_ignored. -/
def c9run : ScanPortsRun := scan_ports (.ip "10.0.0.1") 1 1 envClosed 0

/-- Witness for C9_timeout_flag_ignored: -t 5 was given, the probe of port 0
still used timeout 1. -/
theorem C9_timeout_flag_ignored_witness :
    (main { host := .ip "10.0.0.1", start_port := 1, end_port := 1, timeout := 5 }
        envClosed).scan = some c9run ∧
    (0, scan_port_run 0 .timeout .ok 1) ∈ c9run.records ∧
    (0, scan_port_run 0 .timeout .ok 1).2.timeoutUsed = 1 :=
  ⟨rfl, by decide,
    C9_timeout_flag_ignored
      { host := .ip "10.0.0.1", start_port := 1, end_port := 1, timeout := 5 }
      envClosed c9run rfl (0, scan_port_run 0 .timeout .ok 1) (by decide)⟩

end PortScanner

namespace PortScanner

/-- Concrete inputs used to evaluate the code where it contradicts the spec. -/
def c1args : Args := { host := .ip "10.0.0.1", start_port := 5, end_port := 10 }

/-- Arguments for a scan of [1,100]. -/
def c2args : Args := { host := .ip "10.0.0.1", start_port := 1, end_port := 100 }

/-- Arguments with --common together with an explicit range. -/
def c3args : Args :=
  { host := .ip "10.0.0.1", start_port := 1, end_port := 100, common := true }

/-- Arguments with --common and an out-of-range explicit start and end. -/
def c6args : Args :=
  { host := .ip "192.168.1.1", start_port := 0, end_port := 70000, common := true }

/-- Arguments without --common and a start port below 1. -/
def c6args2 : Args := { host := .ip "10.0.0.1", start_port := 0, end_port := 10 }

/-- C1: evaluation at the failing input.  A completed `main` scan requested
for the range [5,10] records one entry per port 0,…,10 — eleven entries,
including five ports below the requested start — because `scan_ports`' loop
begins at `start_from_port`, whose default is 0, and `main` (line 120) never
passes `start_port` for it.  The claim requires exactly the six entries for
ports 5–10. -/
theorem C1_scan_records_ports_below_start :
    ((main c1args envClosed).scan.getD {}).results.map Prod.fst =
      List.range' 0 11 ∧
    (List.range' 0 11).length = 11 ∧
    (0 : Nat) ∈ List.range' 0 11 ∧
    List.range' 0 11 ≠ List.range' 5 6 := by decide

/-- C2: evaluation at the failing input.  For a scan of [1,100] interrupted
after port 50 and then continued, the resumed call probes every port 1,…,100
(`current_port`, line 117, is never updated, so the "cursor" is still the
start port whatever the interruption point was): port 50 is probed again and
the resumed scan is not the remainder [51,100].  Moreover the final results
mapping covers ports 1–100 while an uninterrupted run of `main` covers 0–100,
so the two snapshots differ as sets of ports. -/
theorem C2_resume_restarts_from_start_port :
    ((main_resume c2args envClosed).getD {}).results.map Prod.fst =
      List.range' 1 100 ∧
    (50 : Nat) ∈ List.range' 1 100 ∧
    List.range' 1 100 ≠ List.range' 51 50 ∧
    ((main c2args envClosed).scan.getD {}).results.map Prod.fst =
      List.range' 0 101 ∧
    List.range' 1 100 ≠ List.range' 0 101 := by decide

/-- C6 counterexample: an argument combination with start-port 0 (< 1) and
end-port 70000 (> 65535) for which `main` prints no validation message and
issues probes — because --common overrides both ports before validation runs
(lines 105–108 precede lines 110–115). -/
theorem C6_common_bypasses_validation :
    (main c6args envClosed).validationMsg = none ∧
    (main c6args envClosed).scan ≠ none ∧
    ((main c6args envClosed).scan.getD {}).probes ≠ [] := by
  refine ⟨rfl, ?_, ?_⟩ <;> decide

/-- C6 (amended): for every argument combination without --common in which
start-port < 1, or end-port > 65535, or start-port > end-port, `main` prints
a validation message and returns without running any scan (hence without
issuing any probe). -/
theorem C6_validation_rejects_without_common (args : Args)
    (env : Nat → ConnectOutcome × CloseOutcome) (hc : args.common = false)
    (h : args.start_port < 1 ∨ 65535 < args.end_port ∨
      args.end_port < args.start_port) :
    (∃ msg, (main args env).validationMsg = some msg) ∧
    (main args env).scan = none := by
  have hs : effStart args = args.start_port := by simp [effStart, hc]
  have he : effEnd args = args.end_port := by simp [effEnd, hc]
  by_cases h1 : effStart args < 1 ∨ 65535 < effEnd args
  · simp [main, validationError, h1]
  · have h2 : effEnd args < effStart args := by
      rw [hs, he] at h1 ⊢
      omega
    simp [main, validationError, h1, h2]

/-- Witness for C6_validation_rejects_without_common: start-port 0. -/
theorem C6_validation_rejects_without_common_witness :
    c6args2.common = false ∧
    (c6args2.start_port < 1 ∨ 65535 < c6args2.end_port ∨
      c6args2.end_port < c6args2.start_port) ∧
    ((∃ msg, (main c6args2 envClosed).validationMsg = some msg) ∧
     (main c6args2 envClosed).scan = none) :=
  ⟨rfl, by decide,
    C6_validation_rejects_without_common c6args2 envClosed rfl (by decide)⟩

end PortScanner

namespace PortScanner

/-- `pyRange` with step 1 is an interval. -/
lemma pyRange_one (a b : Nat) : pyRange a b 1 = List.range' a (b - a) := by
  simp [pyRange, List.range'_eq_map_range]

/-- The chunking loop as a map over the batch start ports. -/
lemma scanBatches_eq (sfp ep : Nat) :
    scanBatches sfp ep =
      (pyRange sfp (ep + 1) (chunk_size sfp ep)).map
        (fun q => List.range' q (min (q + chunk_size sfp ep) (ep + 1) - q)) := by
  simp only [scanBatches, pyRange_one]

/-- Dropping the last element of `List.range`. -/
lemma dropLast_range (k : Nat) : (List.range k).dropLast = List.range (k - 1) := by
  cases k with
  | zero => rfl
  | succ m => rw [List.range_succ, List.dropLast_concat]; simp

/-- Peeling the first batch start off the list of batch starts. -/
lemma range_map_shift (p cs m : Nat) :
    (List.range (m + 1)).map (fun i => p + cs * i) =
      p :: (List.range m).map (fun i => p + cs + cs * i) := by
  rw [List.range_succ_eq_map, List.map_cons, List.map_map]
  have h0 : p + cs * 0 = p := by ring
  rw [h0]
  have hf : ((fun i => p + cs * i) ∘ Nat.succ) = fun i => p + cs + cs * i := by
    funext i
    simp only [Function.comp, Nat.succ_eq_add_one]
    ring
  rw [hf]

/-- Flattening the batches of the chunking loop yields the whole interval:
the batches tile `[p, ep]` contiguously, without gap or overlap. -/
lemma join_batches (ep cs : Nat) (hcs : 0 < cs) :
    ∀ n p, n = (ep + 1 - p + cs - 1) / cs →
      (((List.range n).map (fun i => p + cs * i)).map
          (fun q => List.range' q (min (q + cs) (ep + 1) - q))).flatten
        = List.range' p (ep + 1 - p) := by
  intro n
  induction n with
  | zero =>
    intro p hp
    have h0 : ep + 1 - p + cs - 1 < cs := (Nat.div_eq_zero_iff hcs).mp hp.symm
    have h1 : ep + 1 - p = 0 := by omega
    simp [h1]
  | succ m ih =>
    intro p hp
    rw [range_map_shift, List.map_cons, List.flatten_cons]
    by_cases hcase : ep + 1 ≤ p + cs
    · have hm : m = 0 := by
        have hlt : (ep + 1 - p + cs - 1) / cs < 2 := by
          rw [Nat.div_lt_iff_lt_mul hcs]
          omega
        omega
      subst hm
      simp only [List.range_zero, List.map_nil, List.flatten_nil, List.append_nil]
      have hmin : min (p + cs) (ep + 1) = ep + 1 := by omega
      rw [hmin]
    · push_neg at hcase
      have hm : m = (ep + 1 - (p + cs) + cs - 1) / cs := by
        have h1 : ep + 1 - p + cs - 1 = (ep + 1 - (p + cs) + cs - 1) + cs := by
          omega
        rw [h1, Nat.add_div_right _ hcs] at hp
        omega
      rw [ih (p + cs) hm]
      have hmin : min (p + cs) (ep + 1) = p + cs := by omega
      rw [hmin, Nat.add_sub_cancel_left]
      have happ := List.range'_append p cs (ep + 1 - (p + cs)) 1
      simp only [Nat.one_mul] at happ
      rw [happ]
      congr 1
      omega

/-- For `sfp ≤ ep`, the ports probed by the chunking loop are exactly the
interval `[sfp, ep]`, in ascending order (hence one entry per port, no
duplicate, no omission). -/
theorem scannedPorts_eq (sfp ep : Nat) (h : sfp ≤ ep) :
    scannedPorts sfp ep = List.range' sfp (ep + 1 - sfp) := by
  have hcs : 0 < chunk_size sfp ep := by unfold chunk_size; omega
  unfold scannedPorts
  rw [scanBatches_eq]
  unfold pyRange
  exact join_batches ep (chunk_size sfp ep) hcs _ sfp rfl

/-- The number of batches is `⌈R / 1000⌉` for a range of size `R`. -/
lemma scanBatches_length (sfp ep : Nat) (h : sfp ≤ ep) :
    (scanBatches sfp ep).length = (ep + 1 - sfp + 999) / 1000 := by
  rw [scanBatches_eq, List.length_map]
  unfold pyRange
  rw [List.length_map, List.length_range]
  unfold chunk_size
  by_cases hcase : ep + 1 - sfp ≤ 1000
  · have hmin : min 1000 (ep - sfp + 1) = ep + 1 - sfp := by omega
    rw [hmin]
    have hL : (ep + 1 - sfp + (ep + 1 - sfp) - 1) / (ep + 1 - sfp) = 1 :=
      Nat.div_eq_of_lt_le (by omega) (by omega)
    rw [hL]
    omega
  · have hmin : min 1000 (ep - sfp + 1) = 1000 := by omega
    rw [hmin]
    have h1 : ep + 1 - sfp + 1000 - 1 = ep + 1 - sfp + 999 := by omega
    rw [h1]

/-- Every batch except possibly the last one has exactly 1000 ports. -/
lemma scanBatches_dropLast (sfp ep : Nat) (h : sfp ≤ ep) :
    ∀ b ∈ (scanBatches sfp ep).dropLast, b.length = 1000 := by
  intro b hb
  rw [scanBatches_eq, ← List.map_dropLast] at hb
  rw [show pyRange sfp (ep + 1) (chunk_size sfp ep) =
      (List.range ((ep + 1 - sfp + chunk_size sfp ep - 1) / chunk_size sfp ep)).map
        (fun i => sfp + chunk_size sfp ep * i) from rfl,
    ← List.map_dropLast, dropLast_range] at hb
  obtain ⟨q, hq, hbq⟩ := List.mem_map.1 hb
  obtain ⟨i, hi, hqi⟩ := List.mem_map.1 hq
  rw [List.mem_range] at hi
  subst hbq
  subst hqi
  rw [List.length_range']
  have hcs : chunk_size sfp ep = min 1000 (ep + 1 - sfp) := by
    unfold chunk_size
    omega
  by_cases hcase : ep + 1 - sfp ≤ 1000
  · have hRcs : chunk_size sfp ep = ep + 1 - sfp := by omega
    rw [hRcs] at hi
    have hn : (ep + 1 - sfp + (ep + 1 - sfp) - 1) / (ep + 1 - sfp) = 1 :=
      Nat.div_eq_of_lt_le (by omega) (by omega)
    rw [hn] at hi
    omega
  · have hcs1000 : chunk_size sfp ep = 1000 := by omega
    rw [hcs1000] at hi ⊢
    omega

/-- The last batch holds the remainder of the range. -/
lemma scanBatches_getLast (sfp ep : Nat) (h : sfp ≤ ep) :
    ((scanBatches sfp ep).getLastD []).length =
      (ep + 1 - sfp) - ((ep + 1 - sfp + 999) / 1000 - 1) * 1000 := by
  rw [scanBatches_eq]
  rw [show pyRange sfp (ep + 1) (chunk_size sfp ep) =
      (List.range ((ep + 1 - sfp + chunk_size sfp ep - 1) / chunk_size sfp ep)).map
        (fun i => sfp + chunk_size sfp ep * i) from rfl, List.map_map]
  have hcs : chunk_size sfp ep = min 1000 (ep + 1 - sfp) := by
    unfold chunk_size
    omega
  have hn1 : 1 ≤ (ep + 1 - sfp + chunk_size sfp ep - 1) / chunk_size sfp ep := by
    rw [Nat.one_le_div_iff (by omega)]
    omega
  obtain ⟨m, hm⟩ : ∃ m,
      (ep + 1 - sfp + chunk_size sfp ep - 1) / chunk_size sfp ep = m + 1 :=
    ⟨(ep + 1 - sfp + chunk_size sfp ep - 1) / chunk_size sfp ep - 1, by omega⟩
  rw [hm, List.range_succ, List.map_append, List.map_cons, List.map_nil,
    List.getLastD_concat]
  simp only [Function.comp]
  rw [List.length_range']
  by_cases hcase : ep + 1 - sfp ≤ 1000
  · have hRcs : chunk_size sfp ep = ep + 1 - sfp := by omega
    rw [hRcs] at hm ⊢
    have hn : (ep + 1 - sfp + (ep + 1 - sfp) - 1) / (ep + 1 - sfp) = 1 :=
      Nat.div_eq_of_lt_le (by omega) (by omega)
    rw [hn] at hm
    have hm0 : m = 0 := by omega
    rw [hm0]
    omega
  · have hcs1000 : chunk_size sfp ep = 1000 := by omega
    rw [hcs1000] at hm ⊢
    omega

end PortScanner

namespace PortScanner

/-- Projecting the keys out of the results dictionary gives back the probed
ports. -/
lemma map_fst_map_pair {α β : Type _} (l : List α) (f : α → β) :
    (l.map (fun p => (p, f p))).map Prod.fst = l := by
  rw [List.map_map]
  exact List.map_id l

/-- C5: the chunking loop of `scan_ports` partitions the scanned range
`[sfp, ep]` of size `R = ep + 1 - sfp` into contiguous batches of size
`min(1000, R)`: there are exactly `⌈R / 1000⌉` batches, every batch except
possibly the last has exactly 1000 ports, the last holds the remainder, and
the batches concatenated in processing order are exactly the interval
`[sfp, ep]` in ascending order.  (The loop awaits every probe of a batch
before creating the next batch's tasks, so `scanBatches`' list order is the
processing order.) -/
theorem C5_batch_partition (sfp ep : Nat) (h : sfp ≤ ep) :
    chunk_size sfp ep = min 1000 (ep + 1 - sfp) ∧
    (scanBatches sfp ep).length = (ep + 1 - sfp + 999) / 1000 ∧
    (∀ b ∈ (scanBatches sfp ep).dropLast, b.length = 1000) ∧
    ((scanBatches sfp ep).getLastD []).length =
      (ep + 1 - sfp) - ((ep + 1 - sfp + 999) / 1000 - 1) * 1000 ∧
    (scanBatches sfp ep).flatten = List.range' sfp (ep + 1 - sfp) :=
  ⟨by unfold chunk_size; omega,
   scanBatches_length sfp ep h,
   scanBatches_dropLast sfp ep h,
   scanBatches_getLast sfp ep h,
   scannedPorts_eq sfp ep h⟩

/-- Witness for C5_batch_partition on the range [0,1500]: two batches, the
first of 1000 ports and the last of 501. -/
theorem C5_batch_partition_witness :
    (0 : Nat) ≤ 1500 ∧
    (chunk_size 0 1500 = min 1000 (1500 + 1 - 0) ∧
     (scanBatches 0 1500).length = (1500 + 1 - 0 + 999) / 1000 ∧
     (∀ b ∈ (scanBatches 0 1500).dropLast, b.length = 1000) ∧
     ((scanBatches 0 1500).getLastD []).length =
       (1500 + 1 - 0) - ((1500 + 1 - 0 + 999) / 1000 - 1) * 1000 ∧
     (scanBatches 0 1500).flatten = List.range' 0 (1500 + 1 - 0)) :=
  ⟨by omega, C5_batch_partition 0 1500 (by omega)⟩

end PortScanner

namespace PortScanner

/-- C3: evaluation at the failing input.  With --common (and an explicit
range [1,100] on the command line), `main` overrides the range to [20,27017]
(min and max of the table) but `ports_to_scan` is never used to restrict the
scan, and the scan again starts from 0: the results cover every port
0,…,27017 — in particular port 24, which is not a key of COMMON_PORTS — not
just the table's 11 keys. -/
theorem C3_common_scans_ports_outside_table :
    ((main c3args envClosed).scan.getD {}).records.map Prod.fst =
      List.range' 0 27018 ∧
    (24 : Nat) ∈ List.range' 0 27018 ∧
    COMMON_PORTS.lookup 24 = none ∧
    COMMON_PORTS.length = 11 := by
  refine ⟨?_, by decide, by decide, by decide⟩
  show (scan_ports (.ip "10.0.0.1") 20 27017 envClosed 0).records.map Prod.fst =
    List.range' 0 27018
  simp only [scan_ports, resolve]
  rw [map_fst_map_pair]
  rw [scannedPorts_eq 0 27017 (by omega)]

end PortScanner
